import Mathlib

/-!
Shallow embedding of the task-lifecycle and stem-playback core of the
trane repository (frontend client), and proofs about the claims of its
specification.

Embedded source files:
- src/frontend/src/api.ts (fetchAPI)
- src/frontend/src/components/AudioProcessor.tsx (task submission,
  WebSocket status channel, task registry)
- src/frontend/src/components/AudioPlayer/WaveformVisualizer.tsx
  (waveform interaction and the stem AudioPlayer transport defined in
  the same file: handleTrackEnd, handleTimeChange, toggleSolo, skip
  buttons)
- src/frontend/src/components/AudioPlayer.tsx (basic AudioPlayer with
  the same clamped skip and end-of-track advance)
-/

namespace Trane

/- ## Task Registry (AudioProcessor.tsx) -/

/-- Latest stored state for a job in the client task registry:
the `tasks` React state of AudioProcessor holds, per task id, the object
`\x7b progress: data.progress, status: data.status \x7d` (lines 23-26, 90-93). -/
structure TaskEntry where
  progress : Int
  status : String
deriving Repr, DecidableEq

/-- A message delivered on the job status WebSocket: the handler parses
`\x7b progress, status, error? \x7d` from `event.data` (line 89). -/
structure WsMessage where
  progress : Int
  status : String
  error : Option String
deriving Repr, DecidableEq

/-- JavaScript `Map.prototype.set`, as used by
`new Map(prev).set(taskId, ...)` (AudioProcessor.tsx line 90): if the key
is present its entry is replaced in place (insertion order is kept),
otherwise the pair is appended. The registry is the association list of
its entries in insertion order. -/
def mapSet (m : List (String × TaskEntry)) (k : String) (v : TaskEntry) :
    List (String × TaskEntry) :=
  if m.any (fun p => p.1 == k) then
    m.map (fun p => if p.1 == k then (k, v) else p)
  else
    m ++ [(k, v)]

/-- JavaScript `Map.prototype.get`: the entry stored under `k`, if any. -/
def mapGet (m : List (String × TaskEntry)) (k : String) : Option TaskEntry :=
  (m.find? (fun p => p.1 == k)).map (fun p => p.2)

/- ## Job Status Channel (AudioProcessor.tsx, connectWebSocket lines 83-110) -/

/-- State of one job status channel: whether the WebSocket is open, and
the task registry it writes into. -/
structure ChannelState where
  socketOpen : Bool
  tasks : List (String × TaskEntry)
deriving Repr, DecidableEq

/-- The `ws.onmessage` handler (AudioProcessor.tsx lines 88-107): while
the socket is open, each message stores `\x7b progress, status \x7d` under the
channel's `taskId`; on `completed` or `failed` it additionally shows a
toast, but it never calls `ws.close()`, so the socket state is left
unchanged. A closed socket delivers no messages. -/
def channelOnMessage (taskId : String) (s : ChannelState) (data : WsMessage) :
    ChannelState :=
  if s.socketOpen then
    { s with tasks := mapSet s.tasks taskId ⟨data.progress, data.status⟩ }
  else s

/-- Processing a sequence of inbound messages in delivery order. -/
def channelRun (taskId : String) (s : ChannelState) (msgs : List WsMessage) :
    ChannelState :=
  msgs.foldl (channelOnMessage taskId) s

/- ## Mixer solo state (WaveformVisualizer.tsx, AudioPlayer section) -/

/-- The `toggleSolo` handler (WaveformVisualizer.tsx lines 190-196): the
soloed track is a single nullable value `soloedTrack` (line 103); toggling
the currently soloed track clears it, toggling any other track replaces it. -/
def toggleSolo (soloedTrack : Option String) (trackName : String) :
    Option String :=
  if soloedTrack = some trackName then none else some trackName

/-- A track is rendered as soloed exactly when `soloedTrack === track.name`
(line 317). -/
def isSoloed (soloedTrack : Option String) (trackName : String) : Bool :=
  soloedTrack = some trackName

/- ## JavaScript numbers for the seek path (WaveformVisualizer.tsx) -/

/-- A JavaScript number as far as the seek computation observes it: a
finite value (kept exact as a rational; IEEE-754 rounding is irrelevant
to the finiteness and sign facts proved below), NaN, or a signed infinity. -/
inductive JsNum where
  | fin (q : ℚ)
  | nan
  | inf
  | ninf
deriving Repr, DecidableEq

/-- IEEE-754 multiplication on the finiteness/sign structure of doubles:
anything times NaN is NaN, zero times an infinity is NaN, and infinities
follow the sign rules. Finite times finite is the exact product. -/
def jsMul : JsNum → JsNum → JsNum
  | .nan, _ => .nan
  | _, .nan => .nan
  | .fin a, .fin b => .fin (a * b)
  | .fin a, .inf => if 0 < a then .inf else if a < 0 then .ninf else .nan
  | .fin a, .ninf => if 0 < a then .ninf else if a < 0 then .inf else .nan
  | .inf, .fin b => if 0 < b then .inf else if b < 0 then .ninf else .nan
  | .ninf, .fin b => if 0 < b then .ninf else if b < 0 then .inf else .nan
  | .inf, .inf => .inf
  | .inf, .ninf => .ninf
  | .ninf, .inf => .ninf
  | .ninf, .ninf => .inf

/-- The wavesurfer `interaction` callback (WaveformVisualizer.tsx lines
45-47): `onTimeChange([position * duration])` — the payload is the single
product, with no clamping and no finiteness guard. -/
def interactionPayload (position duration : JsNum) : List JsNum :=
  [jsMul position duration]

/-- The `handleTimeChange` callback it feeds (WaveformVisualizer.tsx lines
148-153): `audioRef.current.currentTime = value[0]; setCurrentTime(value[0])`.
It uses `value[0]` as the new current time unchanged; no clamp, no guard.
(The handler is only ever invoked with a one-element array; the NaN default
models the `undefined` of an out-of-range index.) -/
def handleTimeChange (value : List JsNum) : JsNum :=
  value.headD JsNum.nan

/-- The full waveform-seek path: the interaction ratio and the current
duration determine the new transport current time. -/
def seekViaWaveform (position duration : JsNum) : JsNum :=
  handleTimeChange (interactionPayload position duration)

/- ## Transport state machine (WaveformVisualizer.tsx AudioPlayer section) -/

/-- Transport state of the stem player: the React state `isPlaying`,
`currentTrackIndex`, `isLooping`, together with the audio element's
current time (`audioRef.current.currentTime`), which the handlers write. -/
structure PlayerState where
  isPlaying : Bool
  mediaTime : ℚ
  currentTrackIndex : ℤ
  isLooping : Bool
deriving Repr, DecidableEq

/-- The `handleTrackEnd` handler for the `ended` media event
(WaveformVisualizer.tsx lines 135-146). Looping: sets the element's
currentTime to 0 and calls `play()`, whose `onPlay` handler sets
`isPlaying` to true. Otherwise, with a next track
(`currentTrackIndex < tracks.length - 1`), it increments the index; the
`src` of the audio element then changes to the next track's URL and the
media load algorithm resets the element's currentTime to 0. Otherwise it
sets `isPlaying` to false. (AudioPlayer.tsx lines 60-66 is the same
handler without the looping branch.) -/
def handleTrackEnd (numTracks : ℤ) (s : PlayerState) : PlayerState :=
  if s.isLooping then
    { s with mediaTime := 0, isPlaying := true }
  else if s.currentTrackIndex < numTracks - 1 then
    { s with currentTrackIndex := s.currentTrackIndex + 1, mediaTime := 0 }
  else
    { s with isPlaying := false }

/-- The transport operations that touch the track index or feed
`handleTrackEnd`: the skip-back button `Math.max(0, currentTrackIndex - 1)`
(WaveformVisualizer.tsx line 242, AudioPlayer.tsx line 130), the
skip-forward button `Math.min(tracks.length - 1, currentTrackIndex + 1)`
(line 262, resp. line 150), `togglePlay` (lines 124-133), `toggleLoop`
(lines 179-184), and the `ended` event. -/
inductive TransportOp where
  | skipBack
  | skipForward
  | togglePlay
  | toggleLoop
  | trackEnd
deriving Repr, DecidableEq

/-- Effect of one transport operation on the player state. -/
def applyOp (numTracks : ℤ) (s : PlayerState) : TransportOp → PlayerState
  | .skipBack => { s with currentTrackIndex := max 0 (s.currentTrackIndex - 1) }
  | .skipForward =>
      { s with currentTrackIndex := min (numTracks - 1) (s.currentTrackIndex + 1) }
  | .togglePlay => { s with isPlaying := !s.isPlaying }
  | .toggleLoop => { s with isLooping := !s.isLooping }
  | .trackEnd => handleTrackEnd numTracks s

/-- Initial player state: `useState(false)`, `useState(0)` for time,
`useState(0)` for the index, `useState(false)` for looping. -/
def initialPlayerState : PlayerState :=
  { isPlaying := false, mediaTime := 0, currentTrackIndex := 0, isLooping := false }

/-- Player state reached by a sequence of transport operations from the
initial state, with `numTracks` tracks in the view. -/
def runTransport (numTracks : ℤ) (ops : List TransportOp) : PlayerState :=
  ops.foldl (applyOp numTracks) initialPlayerState

/- ## Task submission (AudioProcessor.tsx handleSubmit, api.ts fetchAPI) -/

/-- A file attached for submission, identified by its name (`file.name`). -/
structure FilePayload where
  name : String
deriving Repr, DecidableEq

/-- The processing options state of AudioProcessor (lines 9-22). -/
structure ProcessingOptions where
  model : String
  instruments : List String
  priority : String
deriving Repr, DecidableEq

/-- One entry of the multipart `FormData` body. -/
inductive FormField where
  | fileField (field : String) (file : FilePayload)
  | textField (field : String) (value : String)
deriving Repr, DecidableEq

/-- A JSON string literal. -/
def jsonStr (s : String) : String :=
  "\"" ++ s ++ "\""

/-- `JSON.stringify(\x7b ...options, filename: file.name \x7d)` for the options
object of AudioProcessor (handleSubmit lines 120-123). -/
def serializeProcessingOptions (o : ProcessingOptions) (filename : String) :
    String :=
  "\x7b\"model\":" ++ jsonStr o.model ++
  ",\"instruments\":[" ++ String.intercalate (",") (o.instruments.map jsonStr) ++
  "],\"priority\":" ++ jsonStr o.priority ++
  ",\"filename\":" ++ jsonStr filename ++ "\x7d"

/-- The `FormData` built per file in handleSubmit (lines 116-123):
the audio file, the model version, and the processing-options JSON. -/
def buildFormData (file : FilePayload) (opts : ProcessingOptions) :
    List FormField :=
  [FormField.fileField ("audio_file") file,
   FormField.textField ("model_version") opts.model,
   FormField.textField ("processing_options")
     (serializeProcessingOptions opts file.name)]

/-- An outgoing HTTP request as `fetchAPI` assembles it. -/
structure Request where
  url : String
  method : String
  contentType : String
  authorization : Option String
  body : List FormField
deriving Repr, DecidableEq

/-- Request construction in `fetchAPI` (api.ts lines 3-16): the URL is
`'/api' + endpoint`; `headers.set('Content-Type', 'application/json')` is
executed unconditionally (line 7) — also when the body is `FormData` — and
an explicitly set Content-Type is sent as given by `fetch`, so no multipart
boundary type replaces it; the bearer header is added when a token is
stored. -/
def fetchAPI_request (endpoint method : String) (token : Option String)
    (body : List FormField) : Request :=
  { url := ("/api") ++ endpoint
    method := method
    contentType := ("application/json")
    authorization := token.map (fun t => ("Bearer ") ++ t)
    body := body }

/-- The error taxonomy of the submission client named by the spec. -/
inductive SubmitError where
  | validationError
  | networkError
  | serverError (message : String)
deriving Repr, DecidableEq

/-- The `handleSubmit` handler (AudioProcessor.tsx lines 112-127): with
`files.length === 0` it returns immediately — no request is issued and no
error value is produced; otherwise it issues one `POST /entries/` request
per file with the multipart form body. -/
def handleSubmit (token : Option String) (files : List FilePayload)
    (opts : ProcessingOptions) : List Request × Option SubmitError :=
  if files.length = 0 then ([], none)
  else
    (files.map (fun f =>
      fetchAPI_request ("/entries/") ("POST") token (buildFormData f opts)),
     none)

/-- The submit button state (AudioProcessor.tsx line 196):
`disabled=\x7bfiles.length === 0 || processMutation.isPending\x7d`. -/
def submitDisabled (files : List FilePayload) (isPending : Bool) : Bool :=
  (files.length == 0) || isPending

/- ## Server responses and error surfacing (api.ts, AudioProcessor.tsx) -/

/-- An HTTP response as the client observes it: the ok flag (2xx), the
status text (reason phrase), and the JSON body — a job id on success,
structured per-field error messages on failure. -/
structure HttpResponse where
  ok : Bool
  statusText : String
  id : String
  errorFields : List (String × String)
deriving Repr, DecidableEq

/-- The result path of `fetchAPI` (api.ts lines 18-22): a non-ok response
raises `new Error(response.statusText)` — only the reason phrase, the body
with its field errors is discarded; an ok response is returned parsed. -/
def fetchAPI_outcome (resp : HttpResponse) : Except String HttpResponse :=
  if resp.ok then Except.ok resp else Except.error resp.statusText

/-- The job identifier the submission flow extracts on success:
`connectWebSocket(response.id)` and `return response` (AudioProcessor.tsx
lines 51-53). -/
def submissionJobId (resp : HttpResponse) : Except String String :=
  match fetchAPI_outcome resp with
  | Except.ok r => Except.ok r.id
  | Except.error e => Except.error e

/-- Scan to the closing quote of a JSON string literal, accumulating the
characters read so far. -/
def scanLit : List Char → List Char → Option (String × List Char)
  | _, [] => none
  | acc, c :: rest =>
      if c = '\x22' then some (String.mk acc.reverse, rest)
      else scanLit (c :: acc) rest

/-- Parse one JSON string literal at the head of the input. -/
def parseLit : List Char → Option (String × List Char)
  | c :: rest => if c = '\x22' then scanLit [] rest else none
  | [] => none

/-- Parse the `"key":"value"` pairs of a flat JSON object, up to and
including the closing brace, which must end the input. -/
def parsePairs : Nat → List Char → Option (List (String × String))
  | 0, _ => none
  | fuel + 1, cs =>
    match parseLit cs with
    | none => none
    | some (k, rest1) =>
      match rest1 with
      | ':' :: rest2 =>
        match parseLit rest2 with
        | none => none
        | some (v, rest3) =>
          match rest3 with
          | ',' :: rest4 =>
            match parsePairs fuel rest4 with
            | none => none
            | some tail => some ((k, v) :: tail)
          | ['\x7d'] => some [(k, v)]
          | _ => none
      | _ => none

/-- Model of `JSON.parse` restricted to flat objects with string values
(the shape of the structured field-error bodies, without escape
sequences): any input not of that shape — in particular a plain HTTP
reason phrase such as `Bad Request` — fails to parse and yields none,
exactly as `JSON.parse` throws on it. -/
def jsonParseObj (s : String) : Option (List (String × String)) :=
  match s.toList with
  | '\x7b' :: '\x7d' :: [] => some []
  | '\x7b' :: rest => parsePairs s.length rest
  | _ => none

/-- The catch block of `processMutation` (AudioProcessor.tsx lines 54-65):
it tries `JSON.parse(error.message)` and, on success, joins the entries as
`key: value` pairs with `, `; when parsing fails the raw message is shown
unchanged. -/
def formatUploadError (message : String) : String :=
  match jsonParseObj message with
  | some entries =>
      String.intercalate (", ") (entries.map (fun kv => kv.1 ++ (": ") ++ kv.2))
  | none => message

/-- The toast message the user sees for a failed submission response: the
composition of `fetchAPI`'s thrown error with the catch block's
formatting. None when the response is ok. -/
def surfacedUploadError (resp : HttpResponse) : Option String :=
  match fetchAPI_outcome resp with
  | Except.ok _ => none
  | Except.error msg => some (formatUploadError msg)

/- ## View lifecycle resources (WaveformVisualizer.tsx, AudioProcessor.tsx) -/

/-- The two external resources a playback/processing view holds: the job's
WebSocket and the wavesurfer rendering instance. -/
structure ViewResources where
  wsOpen : Bool
  wavesurferAlive : Bool
deriving Repr, DecidableEq

/-- Mounting the view: `connectWebSocket` constructs a live WebSocket
(AudioProcessor.tsx lines 83-86) and the WaveformVisualizer effect
constructs a wavesurfer instance (lines 28-39). -/
def mountView : ViewResources :=
  { wsOpen := true, wavesurferAlive := true }

/-- Tearing the view down: the WaveformVisualizer effect cleanup calls
`wavesurferRef.current.destroy()` (lines 49-53). No code closes the
WebSocket: `connectWebSocket`'s return value is discarded at its only call
site (line 52) and AudioProcessor registers no unmount cleanup, so the
socket state is untouched. -/
def teardownView (s : ViewResources) : ViewResources :=
  { s with wavesurferAlive := false }

/- ## Helper lemmas -/

theorem mapSet_cons_ne (p : String × TaskEntry) (t : List (String × TaskEntry))
    (k : String) (v : TaskEntry) (h : ¬ p.1 = k) :
    mapSet (p :: t) k v = p :: mapSet t k v := by
  have hb : (p.1 == k) = false := by simpa using h
  by_cases ht : (t.any fun q => q.1 == k) = true <;>
    simp [mapSet, List.any_cons, hb, ht, h]

theorem mapGet_mapSet (m : List (String × TaskEntry)) (k : String)
    (v : TaskEntry) : mapGet (mapSet m k v) k = some v := by
  induction m with
  | nil => simp [mapSet, mapGet]
  | cons p t ih =>
    by_cases h : p.1 = k
    · have hb : (p.1 == k) = true := by simpa using h
      simp only [mapSet, List.any_cons, hb, Bool.true_or, if_true, List.map_cons,
        if_pos hb]
      simp [mapGet]
    · rw [mapSet_cons_ne p t k v h]
      have hb : (p.1 == k) = false := by simpa using h
      simp [mapGet, List.find?, hb] at ih ⊢
      exact ih

theorem channelOnMessage_socketOpen (taskId : String) (s : ChannelState)
    (m : WsMessage) : (channelOnMessage taskId s m).socketOpen = s.socketOpen := by
  unfold channelOnMessage
  split <;> rfl

theorem channelRun_socketOpen (taskId : String) (msgs : List WsMessage) :
    ∀ s : ChannelState, (channelRun taskId s msgs).socketOpen = s.socketOpen := by
  induction msgs with
  | nil => intro s; rfl
  | cons m t ih =>
    intro s
    have : channelRun taskId s (m :: t) =
        channelRun taskId (channelOnMessage taskId s m) t := rfl
    rw [this, ih, channelOnMessage_socketOpen]

theorem channelRun_append_single (taskId : String) (s : ChannelState)
    (msgs : List WsMessage) (m : WsMessage) (h : s.socketOpen = true) :
    mapGet (channelRun taskId s (msgs ++ [m])).tasks taskId =
      some ⟨m.progress, m.status⟩ := by
  have hsplit : channelRun taskId s (msgs ++ [m]) =
      channelOnMessage taskId (channelRun taskId s msgs) m := by
    simp [channelRun, List.foldl_append]
  have ho : (channelRun taskId s msgs).socketOpen = true := by
    rw [channelRun_socketOpen]; exact h
  rw [hsplit]
  unfold channelOnMessage
  rw [if_pos ho]
  exact mapGet_mapSet _ _ _

/- ## Claim theorems -/

/-- Claim C1: for every job id and every sequence of status-channel
messages processed in order with monotone progress values bounded by 100,
the task registry's stored entry for that job afterwards has the progress
and status of the last received message: each update is a last-write-wins
upsert keyed by the job id. -/
theorem taskRegistry_last_write_wins (taskId : String) (s : ChannelState)
    (msgs : List WsMessage) (hopen : s.socketOpen = true) (hne : msgs ≠ [])
    (hmono : List.Chain' (fun a b => a.progress ≤ b.progress) msgs)
    (h100 : ∀ m ∈ msgs, m.progress ≤ 100) :
    mapGet (channelRun taskId s msgs).tasks taskId =
      some ⟨(msgs.getLast hne).progress, (msgs.getLast hne).status⟩ := by
  obtain ⟨ms, m, rfl⟩ : ∃ ms m, msgs = ms ++ [m] := by
    refine ⟨msgs.dropLast, msgs.getLast hne, ?_⟩
    exact (List.dropLast_append_getLast hne).symm
  have hlast : (ms ++ [m]).getLast hne = m := List.getLast_append_singleton ms
  rw [hlast]
  exact channelRun_append_single taskId s ms m hopen

/-- Witness for C1 at a concrete run: two monotone messages for job 42. -/
theorem taskRegistry_last_write_wins_witness :
    mapGet (channelRun ("42") ⟨true, []⟩
        [⟨10, ("processing"), none⟩, ⟨100, ("completed"), none⟩]).tasks ("42") =
      some ⟨100, ("completed")⟩ := by
  have h := taskRegistry_last_write_wins ("42") ⟨true, []⟩
    [⟨10, ("processing"), none⟩, ⟨100, ("completed"), none⟩]
    rfl (by simp) (by simp) (by intro m hm; fin_cases hm <;> simp)
  simpa using h

/-- Claim C7 counterexample: after the terminal message
`\x7bprogress:100,status:completed\x7d` the socket is still open, and a further
message `\x7bprogress:50,status:processing\x7d` still updates the registry —
the channel does not close itself on terminal status. -/
theorem channel_not_closed_on_terminal :
    (channelRun ("42") ⟨true, []⟩
        [⟨100, ("completed"), none⟩]).socketOpen = true ∧
    mapGet (channelRun ("42") ⟨true, []⟩
        [⟨100, ("completed"), none⟩, ⟨50, ("processing"), none⟩]).tasks ("42") =
      some ⟨50, ("processing")⟩ := by
  constructor <;> rfl

/-- Claim C7 as amended: the onmessage handler never calls close, so the
socket state is preserved across any processed sequence — in particular it
stays open after a terminal message — and while it is open every further
message still updates the Task Registry entry; the channel only closes if
the server or the transport closes it. -/
theorem channelRun_socket_stays_open (taskId : String) (s : ChannelState)
    (msgs : List WsMessage) (h : s.socketOpen = true) :
    (channelRun taskId s msgs).socketOpen = true ∧
    ∀ m : WsMessage,
      mapGet (channelRun taskId s (msgs ++ [m])).tasks taskId =
        some ⟨m.progress, m.status⟩ := by
  constructor
  · rw [channelRun_socketOpen]; exact h
  · intro m
    exact channelRun_append_single taskId s msgs m h

/-- Witness for the amended C7 at a concrete run. -/
theorem channelRun_socket_stays_open_witness :
    mapGet (channelRun ("42") ⟨true, []⟩
        ([⟨100, ("completed"), none⟩] ++ [⟨50, ("processing"), none⟩])).tasks ("42") =
      some ⟨50, ("processing")⟩ :=
  (channelRun_socket_stays_open ("42") ⟨true, []⟩
    [⟨100, ("completed"), none⟩] rfl).2 ⟨50, ("processing"), none⟩

/-- Claim C2: in every mixer state at most one track is soloed; toggling
solo on track b while track a is soloed leaves exactly b soloed and a not
soloed; toggling solo on the currently soloed track clears the solo. -/
theorem toggleSolo_mutual_exclusion (s : Option String) (a b : String) :
    (isSoloed s a = true → isSoloed s b = true → a = b) ∧
    (a ≠ b →
      isSoloed (toggleSolo (some a) b) b = true ∧
      isSoloed (toggleSolo (some a) b) a = false) ∧
    toggleSolo (some a) a = none := by
  refine ⟨?_, ?_, ?_⟩
  · intro ha hb
    simp only [isSoloed, decide_eq_true_eq] at ha hb
    rw [ha] at hb
    exact Option.some.inj hb
  · intro hne
    have htog : toggleSolo (some a) b = some b := by
      simp [toggleSolo, fun hc : a = b => hne hc]
    constructor
    · simp [htog, isSoloed]
    · simp [htog, isSoloed]
      exact fun hc => hne hc.symm
  · simp [toggleSolo]

/-- Witness for C2 with two concrete distinct track names. -/
theorem toggleSolo_mutual_exclusion_witness :
    isSoloed (toggleSolo (some ("vocals")) ("drums")) ("drums") = true ∧
    isSoloed (toggleSolo (some ("vocals")) ("drums")) ("vocals") = false ∧
    toggleSolo (some ("vocals")) ("vocals") = none := by
  have h := toggleSolo_mutual_exclusion none ("vocals") ("drums")
  exact ⟨(h.2.1 (by decide)).1, (h.2.1 (by decide)).2, h.2.2⟩

/-- Claim C3 is refuted by the code: the seek path computes
`position * duration` with no finiteness guard and no clamp, so an
interaction at ratio 1/2 with duration NaN sets the current time to NaN,
and an interaction at ratio 0 with duration +∞ also yields NaN — not 0 as
the claim requires. (For finite nonnegative durations and ratios in [0,1]
the product does lie in [0, duration], so the failure is exactly the
missing non-finite guard.) -/
theorem waveformSeek_nonfinite_duration_nan :
    seekViaWaveform (JsNum.fin (1/2)) JsNum.nan = JsNum.nan ∧
    seekViaWaveform (JsNum.fin 0) JsNum.inf = JsNum.nan ∧
    JsNum.nan ≠ JsNum.fin 0 := by
  refine ⟨rfl, ?_, by decide⟩
  simp [seekViaWaveform, interactionPayload, handleTimeChange, jsMul]

/-- Claim C4: at track end, with looping enabled the current track
restarts at time 0 and keeps playing; with looping disabled and a next
track the index advances by exactly 1 and the media time resets to 0
(the element reloads the new src from the start); with looping disabled
and no next track the transport stops. -/
theorem handleTrackEnd_policy (n : ℤ) (s : PlayerState) :
    (s.isLooping = true →
      handleTrackEnd n s = { s with mediaTime := 0, isPlaying := true }) ∧
    (s.isLooping = false → s.currentTrackIndex < n - 1 →
      (handleTrackEnd n s).currentTrackIndex = s.currentTrackIndex + 1 ∧
      (handleTrackEnd n s).mediaTime = 0 ∧
      (handleTrackEnd n s).isLooping = false) ∧
    (s.isLooping = false → ¬ s.currentTrackIndex < n - 1 →
      (handleTrackEnd n s).isPlaying = false ∧
      (handleTrackEnd n s).currentTrackIndex = s.currentTrackIndex ∧
      (handleTrackEnd n s).mediaTime = s.mediaTime) := by
  obtain ⟨p, t, i, l⟩ := s
  refine ⟨?_, ?_, ?_⟩
  · intro hl
    simp at hl
    simp [handleTrackEnd, hl]
  · intro hl hi
    simp at hl
    simp [handleTrackEnd, hl, hi]
  · intro hl hi
    simp at hl
    simp [handleTrackEnd, hl, hi]

/-- Witness for C4: all three branches at concrete states with 3 tracks. -/
theorem handleTrackEnd_policy_witness :
    handleTrackEnd 3 ⟨true, 5, 0, true⟩ = ⟨true, 0, 0, true⟩ ∧
    (handleTrackEnd 3 ⟨true, 5, 0, false⟩).currentTrackIndex = 1 ∧
    (handleTrackEnd 3 ⟨true, 5, 0, false⟩).mediaTime = 0 ∧
    (handleTrackEnd 3 ⟨true, 5, 2, false⟩).isPlaying = false := by
  refine ⟨?_, ?_, ?_, ?_⟩
  · exact (handleTrackEnd_policy 3 ⟨true, 5, 0, true⟩).1 rfl
  · exact ((handleTrackEnd_policy 3 ⟨true, 5, 0, false⟩).2.1 rfl (by decide)).1
  · exact ((handleTrackEnd_policy 3 ⟨true, 5, 0, false⟩).2.1 rfl (by decide)).2.1
  · exact ((handleTrackEnd_policy 3 ⟨true, 5, 2, false⟩).2.2 rfl (by decide)).1

theorem applyOp_index_bounds (n : ℤ) (hn : 1 ≤ n) (s : PlayerState)
    (op : TransportOp) (h0 : 0 ≤ s.currentTrackIndex)
    (h1 : s.currentTrackIndex ≤ n - 1) :
    0 ≤ (applyOp n s op).currentTrackIndex ∧
    (applyOp n s op).currentTrackIndex ≤ n - 1 := by
  obtain ⟨p, t, i, l⟩ := s
  simp only [PlayerState.currentTrackIndex] at h0 h1
  cases op <;> simp [applyOp, handleTrackEnd] <;> (try split_ifs) <;>
    simp_all <;> omega

theorem foldl_index_bounds (n : ℤ) (hn : 1 ≤ n) (ops : List TransportOp) :
    ∀ s : PlayerState, 0 ≤ s.currentTrackIndex → s.currentTrackIndex ≤ n - 1 →
      0 ≤ (ops.foldl (applyOp n) s).currentTrackIndex ∧
      (ops.foldl (applyOp n) s).currentTrackIndex ≤ n - 1 := by
  induction ops with
  | nil => intro s h0 h1; exact ⟨h0, h1⟩
  | cons op rest ih =>
    intro s h0 h1
    have hstep := applyOp_index_bounds n hn s op h0 h1
    exact ih (applyOp n s op) hstep.1 hstep.2

/-- Claim C10 (implicit): for every non-empty track list, the current
track index stays within [0, tracks.length - 1] under every sequence of
transport operations — skip-back and skip-forward clamp the index, and
the end-of-track advance increments only strictly below the last index —
so the player never selects an out-of-range track. -/
theorem trackIndex_in_bounds (n : ℤ) (hn : 1 ≤ n) (ops : List TransportOp) :
    0 ≤ (runTransport n ops).currentTrackIndex ∧
    (runTransport n ops).currentTrackIndex ≤ n - 1 :=
  foldl_index_bounds n hn ops initialPlayerState (by decide)
    (by simp [initialPlayerState]; omega)

/-- Witness for C10: a concrete run over two tracks. -/
theorem trackIndex_in_bounds_witness :
    0 ≤ (runTransport 2 [TransportOp.skipForward, TransportOp.trackEnd,
        TransportOp.skipBack]).currentTrackIndex ∧
    (runTransport 2 [TransportOp.skipForward, TransportOp.trackEnd,
        TransportOp.skipBack]).currentTrackIndex ≤ 2 - 1 :=
  trackIndex_in_bounds 2 (by decide)
    [TransportOp.skipForward, TransportOp.trackEnd, TransportOp.skipBack]

/-- Claim C5 counterexample: submitting with no file attached issues no
request, but it also yields no `ValidationError` — `handleSubmit` returns
silently, so the "always yields a ValidationError" half of the claim is
false. -/
theorem handleSubmit_noFile_no_validationError :
    handleSubmit none [] ⟨("htdemucs"), [], ("medium")⟩ = ([], none) ∧
    (handleSubmit none [] ⟨("htdemucs"), [], ("medium")⟩).2 ≠
      some SubmitError.validationError := by
  constructor
  · rfl
  · intro hc
    simp [handleSubmit] at hc

/-- Claim C5 as amended: a submission attempt with no file attached issues
no network request and yields no error value at all — the handler returns
silently, and the submit control is disabled whenever no file is attached,
so the attempt is prevented rather than reported. -/
theorem handleSubmit_noFile_silent (token : Option String)
    (files : List FilePayload) (opts : ProcessingOptions) (isPending : Bool)
    (h : files.length = 0) :
    (handleSubmit token files opts).1 = [] ∧
    (handleSubmit token files opts).2 = none ∧
    submitDisabled files isPending = true := by
  refine ⟨?_, ?_, ?_⟩
  · simp [handleSubmit, h]
  · simp [handleSubmit, h]
  · simp [submitDisabled, h]

/-- Witness for the amended C5 at the empty file list. -/
theorem handleSubmit_noFile_silent_witness :
    (handleSubmit none [] ⟨("mdx"), [], ("low")⟩).1 = [] ∧
    (handleSubmit none [] ⟨("mdx"), [], ("low")⟩).2 = none ∧
    submitDisabled [] false = true :=
  handleSubmit_noFile_silent none [] ⟨("mdx"), [], ("low")⟩ false rfl

/-- Claim C6 is refuted by the code: for a non-2xx response whose body
carries the structured field error `audio_file: No file provided.`, the
surfaced message is the opaque reason phrase `Bad Request` — `fetchAPI`
throws `Error(response.statusText)` and discards the body, so the
per-field formatting in the catch block never sees the field errors (the
surfaced message is the same whether the body has field errors or not),
while the formatter would have produced `audio_file: No file provided.`
had the body reached it. -/
theorem serverError_surfaced_opaque :
    surfacedUploadError
        ⟨false, ("Bad Request"), (""), [(("audio_file"), ("No file provided."))]⟩ =
      some ("Bad Request") ∧
    surfacedUploadError
        ⟨false, ("Bad Request"), (""), [(("audio_file"), ("No file provided."))]⟩ =
      surfacedUploadError ⟨false, ("Bad Request"), (""), []⟩ ∧
    formatUploadError
        ("\x7b\"audio_file\":\"No file provided.\"\x7d") =
      ("audio_file: No file provided.") ∧
    ("Bad Request") ≠ ("audio_file: No file provided.") := by
  refine ⟨rfl, rfl, ?_, by decide⟩
  rfl

/-- Claim C8 is refuted by the code on its content-type conjunct: the
request body does carry the audio file, the model version and the
processing-options JSON, and a 2xx response does return the job id from
the body, but `fetchAPI` unconditionally sets the Content-Type header to
`application/json`, which `fetch` sends as given — the request's content
type is not multipart. -/
theorem submitRequest_contentType_json :
    (handleSubmit (some ("tok")) [⟨("song.wav")⟩]
        ⟨("htdemucs"), [], ("medium")⟩).1 =
      [{ url := ("/api/entries/")
         method := ("POST")
         contentType := ("application/json")
         authorization := some ("Bearer tok")
         body := [FormField.fileField ("audio_file") ⟨("song.wav")⟩,
                  FormField.textField ("model_version") ("htdemucs"),
                  FormField.textField ("processing_options")
                    ("\x7b\"model\":\"htdemucs\",\"instruments\":[],\"priority\":\"medium\",\"filename\":\"song.wav\"\x7d")] }] ∧
    ("application/json") ≠ ("multipart/form-data") ∧
    submissionJobId ⟨true, ("Created"), ("42"), []⟩ = Except.ok ("42") := by
  refine ⟨?_, by decide, rfl⟩
  rfl

/-- Claim C9 counterexample: tearing down a freshly mounted view destroys
the wavesurfer instance but leaves the WebSocket open — a live socket
outlives the view. -/
theorem teardown_leaves_socket_open :
    teardownView mountView = ⟨true, false⟩ ∧
    (teardownView mountView).wsOpen = true := by
  exact ⟨rfl, rfl⟩

/-- Claim C9 as amended: tearing the view down destroys the
waveform-rendering resource, but the job's WebSocket is never closed by
the view — the socket state is untouched by teardown, so a live socket
outlives every mount/unmount cycle while the rendering context does not. -/
theorem teardownView_behavior (s : ViewResources) :
    (teardownView s).wavesurferAlive = false ∧
    (teardownView s).wsOpen = s.wsOpen :=
  ⟨rfl, rfl⟩

end Trane
